import Mathlib

/-!
Verification of the AgentsPay Python SDK (packages/sdk-python/agentspay and
sdk-python/agentspay) against its natural-language specification.

The SDK is a thin HTTP client: each operation issues one request, receives
either a transport failure (a `requests.RequestException`: network error,
timeout, or `raise_for_status` on a non-2xx status) or a JSON body, and maps
the body to a typed record.  We embed the JSON data model, Python dictionary
access (`d.get(k)` returning `None` when absent, `d[k]` raising `KeyError`),
Python truthiness (`if not x`), and each operation's response handling as a
total function from the received `HttpResult` to `Except PyError α`, where
`PyError` separates domain errors (the `AgentPayError` hierarchy) from raw
language-level exceptions (`KeyError`, `TypeError`) that the code does not
catch.
-/

/-- A JSON value as produced by `response.json()`.  Numbers are modelled as
integers (no claim depends on fractional arithmetic); objects are
insertion-ordered association lists, as Python dictionaries are. -/
inductive Json where
  | null
  | bool (b : Bool)
  | num (n : Int)
  | str (s : String)
  | arr (elems : List Json)
  | obj (fields : List (String × Json))

/-- `d.get(k)` on a Python dict: the value when the key is present, `None`
otherwise; on a non-dict value the model yields `none` (the code only calls
`.get` on parsed JSON objects). -/
def Json.get? : Json → String → Option Json
  | .obj fields, k => (fields.find? (fun p => p.1 == k)).map Prod.snd
  | _, _ => none

/-- Python truthiness of a JSON value: `None`, `False`, `0`, `""`, `[]` and
`{}` are falsy, everything else truthy. -/
def Json.truthy : Json → Bool
  | .null => false
  | .bool b => b
  | .num n => n != 0
  | .str s => s != ""
  | .arr xs => !xs.isEmpty
  | .obj fs => !fs.isEmpty

/-- `x = d.get(k)` followed by `if not x: ...`: the key's value when it is
present and truthy, `none` when the key is absent or its value is falsy. -/
def Json.getTruthy (j : Json) (k : String) : Option Json :=
  match j.get? k with
  | some v => if v.truthy then some v else none
  | none => none

/-- Python `v == s` for a JSON value `v` and a string `s`: true exactly when
`v` is the string `s` (no other JSON value compares equal to a string). -/
def Json.isStr (j : Json) (s : String) : Bool :=
  match j with
  | .str t => t == s
  | _ => false

/-- Whether a JSON value is an object (a Python dict). -/
def Json.isObj : Json → Bool
  | .obj _ => true
  | _ => false

/-- Python `s.upper()` on the ASCII currency codes the SDK compares
(uppercasing each character). -/
def pyUpper (s : String) : String := ⟨s.data.map Char.toUpper⟩

/-- Python `x or d` where `x` came from `d.get(k)` (so it may be `None`):
the value when present and truthy, the default otherwise. -/
def pyOr (o : Option Json) (d : Json) : Json :=
  match o with
  | some v => if v.truthy then v else d
  | none => d

/-- The resource kind of a class in the `AgentPayError` hierarchy
(`exceptions.py`): the base class itself, the two generic kinds, and one
kind per resource group. -/
inductive ErrKind where
  | base
  | api
  | validation
  | wallet
  | service
  | payment
  | dispute
  | webhook
  | execution
deriving DecidableEq

/-- A raised error from the `AgentPayError` hierarchy: its class and its
message. -/
structure DomainError where
  kind : ErrKind
  msg : String
deriving DecidableEq

/-- An exception escaping an SDK operation: either a domain error (some
subclass of `AgentPayError`) or a raw Python exception that no operation
catches — `KeyError` from `d[k]` on a missing key, `TypeError` from
iterating a non-list. -/
inductive PyError where
  | domain (e : DomainError)
  | keyError (key : String)
  | typeError
deriving DecidableEq

/-- Whether an escaping exception is a domain error, i.e. an instance of the
SDK's base error class. -/
def PyError.isDomain : PyError → Bool
  | .domain _ => true
  | _ => false

/-- The outcome of one HTTP request as seen by the operation: either a
`requests.RequestException` (network failure, timeout, or non-2xx status via
`raise_for_status`) carrying its message, or a parsed JSON body. -/
inductive HttpResult where
  | failure (cause : String)
  | success (body : Json)

/-- The request an operation sends: method, path relative to the base URL,
optional JSON body, and headers in insertion order. -/
structure Request where
  method : String
  path : String
  body : Option Json
  headers : List (String × String)

/-- `d[k]` on a Python dict: the value, or a raised `KeyError` when absent. -/
def getKey (j : Json) (k : String) : Except PyError Json :=
  match j.get? k with
  | some v => .ok v
  | none => .error (.keyError k)

namespace WalletOperations

/-- `WalletOperations._get_headers`: JSON content type, plus the credential
as a bearer token when one is configured.  No `x-api-key` header. -/
def get_headers (api_key : Option String) : List (String × String) :=
  match api_key with
  | none => [("Content-Type", "application/json")]
  | some k => [("Content-Type", "application/json"), ("Authorization", "Bearer " ++ k)]

end WalletOperations

/-- The `AgentWallet` dataclass (`types.py`).  Fields hold the JSON values
stored by the parse; `balance` and `balance_mnee` come from `.get` and so may
be absent. -/
structure AgentWallet where
  id : Json
  public_key : Json
  address : Json
  created_at : Json
  balance : Option Json
  balance_mnee : Option Json

namespace WalletOperations

/-- `WalletOperations.create_wallet`: POST `/api/wallets`; a transport
failure becomes `WalletError("Failed to create wallet: ...")`; a reply whose
`wallet` key is absent or falsy raises
`WalletError("Invalid response: missing wallet data")`; otherwise the wallet
object is parsed — `id`, `publicKey`, `address`, `createdAt` via `[]`
(raising `KeyError` when absent, uncaught), `balance` and `balanceMnee` via
`.get`. -/
def create_wallet (resp : HttpResult) : Except PyError AgentWallet :=
  match resp with
  | .failure cause => .error (.domain ⟨.wallet, "Failed to create wallet: " ++ cause⟩)
  | .success data =>
    match data.getTruthy "wallet" with
    | none => .error (.domain ⟨.wallet, "Invalid response: missing wallet data"⟩)
    | some w =>
      match w.get? "id" with
      | none => .error (.keyError "id")
      | some i =>
      match w.get? "publicKey" with
      | none => .error (.keyError "publicKey")
      | some pk =>
      match w.get? "address" with
      | none => .error (.keyError "address")
      | some ad =>
      match w.get? "createdAt" with
      | none => .error (.keyError "createdAt")
      | some ca =>
        .ok { id := i, public_key := pk, address := ad, created_at := ca,
              balance := w.get? "balance", balance_mnee := w.get? "balanceMnee" }

/-- `WalletOperations.get_wallet`: GET `/api/wallets/{id}`; transport failure
becomes `WalletError("Failed to get wallet: ...")`; absent or falsy `wallet`
key raises `WalletError("Wallet {id} not found")`; otherwise parsed exactly
as in `create_wallet`. -/
def get_wallet (resp : HttpResult) (wallet_id : String) : Except PyError AgentWallet :=
  match resp with
  | .failure cause => .error (.domain ⟨.wallet, "Failed to get wallet: " ++ cause⟩)
  | .success data =>
    match data.getTruthy "wallet" with
    | none => .error (.domain ⟨.wallet, "Wallet " ++ wallet_id ++ " not found"⟩)
    | some w =>
      match w.get? "id" with
      | none => .error (.keyError "id")
      | some i =>
      match w.get? "publicKey" with
      | none => .error (.keyError "publicKey")
      | some pk =>
      match w.get? "address" with
      | none => .error (.keyError "address")
      | some ad =>
      match w.get? "createdAt" with
      | none => .error (.keyError "createdAt")
      | some ca =>
        .ok { id := i, public_key := pk, address := ad, created_at := ca,
              balance := w.get? "balance", balance_mnee := w.get? "balanceMnee" }

/-- `WalletOperations.get_balance`: fetches the wallet via `get_wallet`, then
dispatches on `currency.upper()`: `"BSV"` returns `wallet.balance or 0`,
`"MNEE"` returns `wallet.balance_mnee or 0`, anything else raises
`WalletError("Invalid currency: {currency}")`. -/
def get_balance (resp : HttpResult) (wallet_id : String) (currency : String) :
    Except PyError Json :=
  match get_wallet resp wallet_id with
  | .error e => .error e
  | .ok wallet =>
    if pyUpper currency == "BSV" then
      .ok (pyOr wallet.balance (.num 0))
    else if pyUpper currency == "MNEE" then
      .ok (pyOr wallet.balance_mnee (.num 0))
    else
      .error (.domain ⟨.wallet, "Invalid currency: " ++ currency⟩)

end WalletOperations

/-- Sequential parse of a Python list comprehension `[f(d) for d in xs]`
over fallible `f`: the first raised exception propagates. -/
def mapExcept (f : α → Except PyError β) : List α → Except PyError (List β)
  | [] => .ok []
  | x :: xs =>
    match f x with
    | .error e => .error e
    | .ok y =>
      match mapExcept f xs with
      | .error e => .error e
      | .ok ys => .ok (y :: ys)

/-- The `Service` dataclass (`types.py`), fields as parsed by
`ServiceOperations._parse_service`. -/
structure Service where
  id : Json
  agent_id : Json
  name : Json
  description : Json
  category : Json
  price : Json
  currency : Json
  endpoint : Json
  method : Json
  active : Json
  timeout : Json
  dispute_window : Json
  created_at : Json
  updated_at : Json
  input_schema : Option Json
  output_schema : Option Json

namespace ServiceOperations

/-- `ServiceOperations._get_headers`: identical to the wallet group — JSON
content type plus optional bearer token, no `x-api-key`. -/
def get_headers (api_key : Option String) : List (String × String) :=
  match api_key with
  | none => [("Content-Type", "application/json")]
  | some k => [("Content-Type", "application/json"), ("Authorization", "Bearer " ++ k)]

/-- `ServiceOperations._parse_service`: twelve mandatory keys read with `[]`
(raising `KeyError` when absent), `timeout` and `disputeWindow` read with
`.get(..., 30)` defaulting to `30`, `inputSchema` and `outputSchema` read
with `.get` and left absent when missing. -/
def parse_service (data : Json) : Except PyError Service :=
  match data.get? "id" with
  | none => .error (.keyError "id")
  | some i =>
  match data.get? "agentId" with
  | none => .error (.keyError "agentId")
  | some aid =>
  match data.get? "name" with
  | none => .error (.keyError "name")
  | some nm =>
  match data.get? "description" with
  | none => .error (.keyError "description")
  | some ds =>
  match data.get? "category" with
  | none => .error (.keyError "category")
  | some cat =>
  match data.get? "price" with
  | none => .error (.keyError "price")
  | some pr =>
  match data.get? "currency" with
  | none => .error (.keyError "currency")
  | some cur =>
  match data.get? "endpoint" with
  | none => .error (.keyError "endpoint")
  | some ep =>
  match data.get? "method" with
  | none => .error (.keyError "method")
  | some mth =>
  match data.get? "active" with
  | none => .error (.keyError "active")
  | some act =>
  match data.get? "createdAt" with
  | none => .error (.keyError "createdAt")
  | some ca =>
  match data.get? "updatedAt" with
  | none => .error (.keyError "updatedAt")
  | some ua =>
    .ok { id := i, agent_id := aid, name := nm, description := ds, category := cat,
          price := pr, currency := cur, endpoint := ep, method := mth, active := act,
          timeout := (data.get? "timeout").getD (.num 30),
          dispute_window := (data.get? "disputeWindow").getD (.num 30),
          created_at := ca, updated_at := ua,
          input_schema := data.get? "inputSchema",
          output_schema := data.get? "outputSchema" }

/-- `ServiceOperations.register_service` response handling: transport failure
becomes `ServiceError("Failed to register service: ...")`; absent or falsy
`service` key raises `ServiceError("Invalid response: missing service
data")`; otherwise `_parse_service`. -/
def register_service (resp : HttpResult) : Except PyError Service :=
  match resp with
  | .failure cause => .error (.domain ⟨.service, "Failed to register service: " ++ cause⟩)
  | .success data =>
    match data.getTruthy "service" with
    | none => .error (.domain ⟨.service, "Invalid response: missing service data"⟩)
    | some sd => parse_service sd

/-- `ServiceOperations.search_services` response handling: transport failure
becomes `ServiceError("Failed to search services: ...")`; the reply's
`services` key defaults to the empty list via `.get("services", [])`, and
each element is parsed with `_parse_service` (iterating a non-list raises
`TypeError`). -/
def search_services (resp : HttpResult) : Except PyError (List Service) :=
  match resp with
  | .failure cause => .error (.domain ⟨.service, "Failed to search services: " ++ cause⟩)
  | .success data =>
    match (data.get? "services").getD (.arr []) with
    | .arr xs => mapExcept parse_service xs
    | _ => .error .typeError

/-- `ServiceOperations.get_service`: transport failure becomes
`ServiceError("Failed to get service: ...")`; absent or falsy `service` key
raises `ServiceError("Service {id} not found")`; otherwise `_parse_service`. -/
def get_service (resp : HttpResult) (service_id : String) : Except PyError Service :=
  match resp with
  | .failure cause => .error (.domain ⟨.service, "Failed to get service: " ++ cause⟩)
  | .success data =>
    match data.getTruthy "service" with
    | none => .error (.domain ⟨.service, "Service " ++ service_id ++ " not found"⟩)
    | some sd => parse_service sd

end ServiceOperations

/-- The `Payment` dataclass (`types.py`), fields as parsed by
`PaymentOperations._parse_payment`. -/
structure Payment where
  id : Json
  service_id : Json
  buyer_wallet_id : Json
  seller_wallet_id : Json
  amount : Json
  platform_fee : Json
  currency : Json
  status : Json
  created_at : Json
  dispute_status : Option Json
  tx_id : Option Json
  completed_at : Option Json

/-- The `ExecutionReceipt` dataclass (`types.py`), fields as parsed by
`PaymentOperations._parse_receipt`. -/
structure ExecutionReceipt where
  id : Json
  payment_id : Json
  service_id : Json
  input_hash : Json
  output_hash : Json
  timestamp : Json
  execution_time_ms : Json
  provider_signature : Json
  platform_signature : Json
  receipt_hash : Json
  blockchain_tx_id : Option Json
  blockchain_anchored_at : Option Json

/-- The `ExecutionResult` dataclass (`types.py`), as built by
`PaymentOperations.execute`. -/
structure ExecutionResult where
  payment_id : Json
  service_id : Json
  output : Json
  execution_time_ms : Json
  status : Json
  receipt : Option ExecutionReceipt
  payment : Option Payment

namespace PaymentOperations

/-- `PaymentOperations._get_headers`: JSON content type, and when a
credential is configured both the bearer token and the `x-api-key` header
carrying the same value. -/
def get_headers (api_key : Option String) : List (String × String) :=
  match api_key with
  | none => [("Content-Type", "application/json")]
  | some k => [("Content-Type", "application/json"),
               ("Authorization", "Bearer " ++ k), ("x-api-key", k)]

/-- `PaymentOperations._parse_payment`: nine mandatory keys read with `[]`,
three optional keys (`disputeStatus`, `txId`, `completedAt`) read with
`.get`. -/
def parse_payment (data : Json) : Except PyError Payment :=
  match data.get? "id" with
  | none => .error (.keyError "id")
  | some i =>
  match data.get? "serviceId" with
  | none => .error (.keyError "serviceId")
  | some sid =>
  match data.get? "buyerWalletId" with
  | none => .error (.keyError "buyerWalletId")
  | some bw =>
  match data.get? "sellerWalletId" with
  | none => .error (.keyError "sellerWalletId")
  | some sw =>
  match data.get? "amount" with
  | none => .error (.keyError "amount")
  | some am =>
  match data.get? "platformFee" with
  | none => .error (.keyError "platformFee")
  | some pf =>
  match data.get? "currency" with
  | none => .error (.keyError "currency")
  | some cur =>
  match data.get? "status" with
  | none => .error (.keyError "status")
  | some st =>
  match data.get? "createdAt" with
  | none => .error (.keyError "createdAt")
  | some ca =>
    .ok { id := i, service_id := sid, buyer_wallet_id := bw, seller_wallet_id := sw,
          amount := am, platform_fee := pf, currency := cur, status := st,
          created_at := ca, dispute_status := data.get? "disputeStatus",
          tx_id := data.get? "txId", completed_at := data.get? "completedAt" }

/-- `PaymentOperations._parse_receipt`: ten mandatory keys read with `[]`,
two optional keys (`blockchainTxId`, `blockchainAnchoredAt`) read with
`.get`. -/
def parse_receipt (data : Json) : Except PyError ExecutionReceipt :=
  match data.get? "id" with
  | none => .error (.keyError "id")
  | some i =>
  match data.get? "paymentId" with
  | none => .error (.keyError "paymentId")
  | some pid =>
  match data.get? "serviceId" with
  | none => .error (.keyError "serviceId")
  | some sid =>
  match data.get? "inputHash" with
  | none => .error (.keyError "inputHash")
  | some ih =>
  match data.get? "outputHash" with
  | none => .error (.keyError "outputHash")
  | some oh =>
  match data.get? "timestamp" with
  | none => .error (.keyError "timestamp")
  | some ts =>
  match data.get? "executionTimeMs" with
  | none => .error (.keyError "executionTimeMs")
  | some et =>
  match data.get? "providerSignature" with
  | none => .error (.keyError "providerSignature")
  | some ps =>
  match data.get? "platformSignature" with
  | none => .error (.keyError "platformSignature")
  | some pls =>
  match data.get? "receiptHash" with
  | none => .error (.keyError "receiptHash")
  | some rh =>
    .ok { id := i, payment_id := pid, service_id := sid, input_hash := ih,
          output_hash := oh, timestamp := ts, execution_time_ms := et,
          provider_signature := ps, platform_signature := pls, receipt_hash := rh,
          blockchain_tx_id := data.get? "blockchainTxId",
          blockchain_anchored_at := data.get? "blockchainAnchoredAt" }

/-- The receipt component of `PaymentOperations.execute`'s reply handling:
`if "receipt" in data and data["receipt"]: receipt = self._parse_receipt(...)`
— parsed only when the key is present and truthy, `None` otherwise.  It
inspects only the `receipt` key. -/
def receiptPart (data : Json) : Except PyError (Option ExecutionReceipt) :=
  match data.getTruthy "receipt" with
  | some rd =>
    match parse_receipt rd with
    | .error e => .error e
    | .ok r => .ok (some r)
  | none => .ok none

/-- The payment component of `PaymentOperations.execute`'s reply handling,
symmetric to `receiptPart` and inspecting only the `payment` key. -/
def paymentPart (data : Json) : Except PyError (Option Payment) :=
  match data.getTruthy "payment" with
  | some pd =>
    match parse_payment pd with
    | .error e => .error e
    | .ok p => .ok (some p)
  | none => .ok none

/-- `PaymentOperations.execute` response handling: transport failure becomes
`ExecutionError("Service execution failed: ...")`; otherwise the optional
receipt and payment objects are parsed independently, then the result record
is built — `paymentId` is mandatory (`KeyError` when absent, uncaught),
while `serviceId`, `output`, `executionTimeMs` and `status` are read with
`.get` and defaults (the requested service id, `{}`, `0`, `"pending"`). -/
def execute (resp : HttpResult) (service_id : String) : Except PyError ExecutionResult :=
  match resp with
  | .failure cause => .error (.domain ⟨.execution, "Service execution failed: " ++ cause⟩)
  | .success data =>
    match receiptPart data with
    | .error e => .error e
    | .ok receipt =>
    match paymentPart data with
    | .error e => .error e
    | .ok payment =>
    match data.get? "paymentId" with
    | none => .error (.keyError "paymentId")
    | some pid =>
      .ok { payment_id := pid,
            service_id := (data.get? "serviceId").getD (.str service_id),
            output := (data.get? "output").getD (.obj []),
            execution_time_ms := (data.get? "executionTimeMs").getD (.num 0),
            status := (data.get? "status").getD (.str "pending"),
            receipt := receipt, payment := payment }

/-- `PaymentOperations.get_payment`: transport failure becomes
`PaymentError("Failed to get payment: ...")`; absent or falsy `payment` key
raises `PaymentError("Payment {id} not found")`; otherwise `_parse_payment`. -/
def get_payment (resp : HttpResult) (payment_id : String) : Except PyError Payment :=
  match resp with
  | .failure cause => .error (.domain ⟨.payment, "Failed to get payment: " ++ cause⟩)
  | .success data =>
    match data.getTruthy "payment" with
    | none => .error (.domain ⟨.payment, "Payment " ++ payment_id ++ " not found"⟩)
    | some pd => parse_payment pd

/-- `PaymentOperations.get_receipt`: transport failure becomes
`PaymentError("Failed to get receipt: ...")`; absent or falsy `receipt` key
raises `PaymentError("Receipt {id} not found")`; otherwise `_parse_receipt`. -/
def get_receipt (resp : HttpResult) (receipt_id : String) : Except PyError ExecutionReceipt :=
  match resp with
  | .failure cause => .error (.domain ⟨.payment, "Failed to get receipt: " ++ cause⟩)
  | .success data =>
    match data.getTruthy "receipt" with
    | none => .error (.domain ⟨.payment, "Receipt " ++ receipt_id ++ " not found"⟩)
    | some rd => parse_receipt rd

end PaymentOperations

/-- The `Dispute` dataclass (`types.py`), fields as parsed by
`DisputeOperations._parse_dispute`. -/
structure Dispute where
  id : Json
  payment_id : Json
  buyer_wallet_id : Json
  provider_wallet_id : Json
  reason : Json
  status : Json
  created_at : Json
  evidence : Option Json
  resolution : Option Json
  split_percent : Option Json
  resolved_at : Option Json

namespace DisputeOperations

/-- `DisputeOperations._get_headers`: JSON content type, and when a
credential is configured both the bearer token and the `x-api-key` header
carrying the same value. -/
def get_headers (api_key : Option String) : List (String × String) :=
  match api_key with
  | none => [("Content-Type", "application/json")]
  | some k => [("Content-Type", "application/json"),
               ("Authorization", "Bearer " ++ k), ("x-api-key", k)]

/-- `DisputeOperations._parse_dispute`: seven mandatory keys read with `[]`,
four optional keys (`evidence`, `resolution`, `splitPercent`, `resolvedAt`)
read with `.get`. -/
def parse_dispute (data : Json) : Except PyError Dispute :=
  match data.get? "id" with
  | none => .error (.keyError "id")
  | some i =>
  match data.get? "paymentId" with
  | none => .error (.keyError "paymentId")
  | some pid =>
  match data.get? "buyerWalletId" with
  | none => .error (.keyError "buyerWalletId")
  | some bw =>
  match data.get? "providerWalletId" with
  | none => .error (.keyError "providerWalletId")
  | some pw =>
  match data.get? "reason" with
  | none => .error (.keyError "reason")
  | some rs =>
  match data.get? "status" with
  | none => .error (.keyError "status")
  | some st =>
  match data.get? "createdAt" with
  | none => .error (.keyError "createdAt")
  | some ca =>
    .ok { id := i, payment_id := pid, buyer_wallet_id := bw, provider_wallet_id := pw,
          reason := rs, status := st, created_at := ca,
          evidence := data.get? "evidence", resolution := data.get? "resolution",
          split_percent := data.get? "splitPercent", resolved_at := data.get? "resolvedAt" }

/-- `DisputeOperations.open_dispute` response handling: transport failure
becomes `DisputeError("Failed to open dispute: ...")`; absent or falsy
`dispute` key raises `DisputeError("Invalid response: missing dispute
data")`; otherwise `_parse_dispute`. -/
def open_dispute (resp : HttpResult) : Except PyError Dispute :=
  match resp with
  | .failure cause => .error (.domain ⟨.dispute, "Failed to open dispute: " ++ cause⟩)
  | .success data =>
    match data.getTruthy "dispute" with
    | none => .error (.domain ⟨.dispute, "Invalid response: missing dispute data"⟩)
    | some dd => parse_dispute dd

/-- `DisputeOperations.get_dispute`: transport failure becomes
`DisputeError("Failed to get dispute: ...")`; absent or falsy `dispute` key
raises `DisputeError("Dispute {id} not found")`; otherwise `_parse_dispute`. -/
def get_dispute (resp : HttpResult) (dispute_id : String) : Except PyError Dispute :=
  match resp with
  | .failure cause => .error (.domain ⟨.dispute, "Failed to get dispute: " ++ cause⟩)
  | .success data =>
    match data.getTruthy "dispute" with
    | none => .error (.domain ⟨.dispute, "Dispute " ++ dispute_id ++ " not found"⟩)
    | some dd => parse_dispute dd

/-- The client-side filter of `DisputeOperations.get_payment_disputes`:
`d.get("paymentId") == payment_id`, true exactly when the entry carries the
requested payment id as a string. -/
def matchesPayment (d : Json) (payment_id : String) : Bool :=
  match d.get? "paymentId" with
  | some v => v.isStr payment_id
  | none => false

/-- `DisputeOperations.get_payment_disputes` response handling: transport
failure becomes `DisputeError("Failed to get payment disputes: ...")`; the
reply's `disputes` key defaults to the empty list, the entries are filtered
client-side by `d.get("paymentId") == payment_id`, and each surviving entry
is parsed with `_parse_dispute`. -/
def get_payment_disputes (resp : HttpResult) (payment_id : String) :
    Except PyError (List Dispute) :=
  match resp with
  | .failure cause => .error (.domain ⟨.dispute, "Failed to get payment disputes: " ++ cause⟩)
  | .success data =>
    match (data.get? "disputes").getD (.arr []) with
    | .arr xs => mapExcept parse_dispute (xs.filter (fun d => matchesPayment d payment_id))
    | _ => .error .typeError

/-- The request `get_payment_disputes` sends: a GET of the whole dispute
collection — the URL is the bare collection path, with no query parameter
derived from the requested payment id. -/
def get_payment_disputes_request (api_key : Option String) (payment_id : String) : Request :=
  { method := "GET", path := "/api/disputes", body := none, headers := get_headers api_key }

/-- `DisputeOperations.add_evidence`: the body is a single unconditional
`raise DisputeError(...)` — no argument is inspected and no HTTP call is
made. -/
def add_evidence (dispute_id : String) (evidence : String) : Except PyError Dispute :=
  .error (.domain ⟨.dispute,
    "Adding evidence after opening a dispute is not supported by this API version. Pass evidence when calling open_dispute(...)."⟩)

/-- The requests `add_evidence` issues: none — its body contains no call to
the HTTP transport. -/
def add_evidence_requests (dispute_id : String) (evidence : String) : List Request := []

end DisputeOperations

/-- The `Webhook` dataclass (`types.py`), fields as parsed by
`WebhookOperations._parse_webhook`. -/
structure Webhook where
  id : Json
  url : Json
  events : Json
  active : Json
  created_at : Json
  secret : Option Json

namespace WebhookOperations

/-- `WebhookOperations._get_headers`: JSON content type, and when a
credential is configured both the bearer token and the `x-api-key` header
carrying the same value. -/
def get_headers (api_key : Option String) : List (String × String) :=
  match api_key with
  | none => [("Content-Type", "application/json")]
  | some k => [("Content-Type", "application/json"),
               ("Authorization", "Bearer " ++ k), ("x-api-key", k)]

/-- `WebhookOperations._parse_webhook`: five mandatory keys read with `[]`,
the optional `secret` read with `.get`. -/
def parse_webhook (data : Json) : Except PyError Webhook :=
  match data.get? "id" with
  | none => .error (.keyError "id")
  | some i =>
  match data.get? "url" with
  | none => .error (.keyError "url")
  | some u =>
  match data.get? "events" with
  | none => .error (.keyError "events")
  | some ev =>
  match data.get? "active" with
  | none => .error (.keyError "active")
  | some ac =>
  match data.get? "createdAt" with
  | none => .error (.keyError "createdAt")
  | some ca =>
    .ok { id := i, url := u, events := ev, active := ac, created_at := ca,
          secret := data.get? "secret" }

/-- `WebhookOperations.register_webhook` response handling: transport
failure becomes `WebhookError("Failed to register webhook: ...")`; absent or
falsy `webhook` key raises `WebhookError("Invalid response: missing webhook
data")`; otherwise `_parse_webhook`. -/
def register_webhook (resp : HttpResult) : Except PyError Webhook :=
  match resp with
  | .failure cause => .error (.domain ⟨.webhook, "Failed to register webhook: " ++ cause⟩)
  | .success data =>
    match data.getTruthy "webhook" with
    | none => .error (.domain ⟨.webhook, "Invalid response: missing webhook data"⟩)
    | some wd => parse_webhook wd

/-- `WebhookOperations.list_webhooks`: transport failure becomes
`WebhookError("Failed to list webhooks: ...")`; the reply's `webhooks` key
defaults to the empty list and each entry is parsed with `_parse_webhook`. -/
def list_webhooks (resp : HttpResult) : Except PyError (List Webhook) :=
  match resp with
  | .failure cause => .error (.domain ⟨.webhook, "Failed to list webhooks: " ++ cause⟩)
  | .success data =>
    match (data.get? "webhooks").getD (.arr []) with
    | .arr xs => mapExcept parse_webhook xs
    | _ => .error .typeError

/-- `WebhookOperations.get_webhook`: calls `list_webhooks`, scans the listing
in order for the first webhook whose `id` equals the requested id, and when
no entry matches raises `WebhookError("Webhook {id} not found")`.  Any error
from `list_webhooks` propagates unchanged (`except WebhookError: raise`; the
`RequestException` arm is unreachable since `list_webhooks` already wraps
transport failures). -/
def get_webhook (resp : HttpResult) (webhook_id : String) : Except PyError Webhook :=
  match list_webhooks resp with
  | .error e => .error e
  | .ok webhooks =>
    match webhooks.find? (fun w => w.id.isStr webhook_id) with
    | some w => .ok w
    | none => .error (.domain ⟨.webhook, "Webhook " ++ webhook_id ++ " not found"⟩)

/-- The single request `get_webhook` issues (inside `list_webhooks`): a GET
of the whole webhook collection — the path does not mention the requested
webhook id. -/
def get_webhook_request (api_key : Option String) (webhook_id : String) : Request :=
  { method := "GET", path := "/api/webhooks", body := none, headers := get_headers api_key }

/-- `WebhookOperations.delete_webhook`: transport failure becomes
`WebhookError("Failed to delete webhook: ...")`; any non-error HTTP outcome
returns `True` regardless of the body. -/
def delete_webhook (resp : HttpResult) : Except PyError Bool :=
  match resp with
  | .failure cause => .error (.domain ⟨.webhook, "Failed to delete webhook: " ++ cause⟩)
  | .success _ => .ok true

/-- `WebhookOperations.update_webhook` response handling: transport failure
becomes `WebhookError("Failed to update webhook: ...")`; absent or falsy
`webhook` key raises `WebhookError("Invalid response: missing webhook
data")`; otherwise `_parse_webhook`. -/
def update_webhook (resp : HttpResult) : Except PyError Webhook :=
  match resp with
  | .failure cause => .error (.domain ⟨.webhook, "Failed to update webhook: " ++ cause⟩)
  | .success data =>
    match data.getTruthy "webhook" with
    | none => .error (.domain ⟨.webhook, "Invalid response: missing webhook data"⟩)
    | some wd => parse_webhook wd

end WebhookOperations

/-- The `ReputationScore` dataclass (`types.py`), fields as parsed by
`AgentPayClient.get_reputation`. -/
structure ReputationScore where
  agent_id : Json
  total_jobs : Json
  success_rate : Json
  avg_response_time_ms : Json
  total_earned : Json
  total_spent : Json
  rating : Json

namespace AgentPayClient

/-- The seven mandatory wire keys of the nested `reputation` record, in the
order `AgentPayClient.get_reputation` reads them. -/
def repMandatoryKeys : List String :=
  ["agentId", "totalJobs", "successRate", "avgResponseTimeMs",
   "totalEarned", "totalSpent", "rating"]

/-- `AgentPayClient.get_reputation`: GET `/api/agents/{id}/reputation` with
bearer-only headers; transport failure becomes
`AgentPayError("Failed to get reputation: ...")` (the base error class);
absent or falsy `reputation` key raises
`AgentPayError("Reputation for agent {id} not found")`; otherwise the seven
mandatory fields are read with `[]` (raising `KeyError` when absent,
uncaught — `except requests.RequestException` does not catch it). -/
def get_reputation (resp : HttpResult) (agent_id : String) : Except PyError ReputationScore :=
  match resp with
  | .failure cause => .error (.domain ⟨.base, "Failed to get reputation: " ++ cause⟩)
  | .success data =>
    match data.getTruthy "reputation" with
    | none => .error (.domain ⟨.base, "Reputation for agent " ++ agent_id ++ " not found"⟩)
    | some rep =>
      match rep.get? "agentId" with
      | none => .error (.keyError "agentId")
      | some aid =>
      match rep.get? "totalJobs" with
      | none => .error (.keyError "totalJobs")
      | some tj =>
      match rep.get? "successRate" with
      | none => .error (.keyError "successRate")
      | some sr =>
      match rep.get? "avgResponseTimeMs" with
      | none => .error (.keyError "avgResponseTimeMs")
      | some art =>
      match rep.get? "totalEarned" with
      | none => .error (.keyError "totalEarned")
      | some te =>
      match rep.get? "totalSpent" with
      | none => .error (.keyError "totalSpent")
      | some ts =>
      match rep.get? "rating" with
      | none => .error (.keyError "rating")
      | some rt =>
        .ok { agent_id := aid, total_jobs := tj, success_rate := sr,
              avg_response_time_ms := art, total_earned := te,
              total_spent := ts, rating := rt }

end AgentPayClient

/-- The ten mandatory wire keys of a receipt object, in the order
`PaymentOperations._parse_receipt` reads them. -/
def receiptMandatoryKeys : List String :=
  ["id", "paymentId", "serviceId", "inputHash", "outputHash", "timestamp",
   "executionTimeMs", "providerSignature", "platformSignature", "receiptHash"]

/-! ## Helper lemmas -/

lemma isStr_eq_iff (j : Json) (s : String) : j.isStr s = true ↔ j = .str s := by
  cases j <;> simp [Json.isStr]

lemma getTruthy_eq_none_of_absent {data : Json} {k : String}
    (h : data.get? k = none) : data.getTruthy k = none := by
  simp [Json.getTruthy, h]

lemma getTruthy_eq_none_of_falsy {data : Json} {k : String} {v : Json}
    (h : data.get? k = some v) (hv : v.truthy = false) : data.getTruthy k = none := by
  simp [Json.getTruthy, h, hv]

lemma mapExcept_ok {f : α → Except PyError β} :
    ∀ {l : List α} {ys : List β}, mapExcept f l = .ok ys →
      (∀ y ∈ ys, ∃ x ∈ l, f x = .ok y) ∧
      (∀ x ∈ l, ∃ y ∈ ys, f x = .ok y) ∧
      ys.length = l.length := by
  intro l
  induction l with
  | nil =>
    intro ys h
    simp only [mapExcept] at h
    cases h
    simp
  | cons x xs ih =>
    intro ys h
    simp only [mapExcept] at h
    cases hx : f x with
    | error e => rw [hx] at h; exact absurd h (by simp)
    | ok y =>
      rw [hx] at h
      cases hxs : mapExcept f xs with
      | error e => rw [hxs] at h; exact absurd h (by simp)
      | ok ys' =>
        rw [hxs] at h
        cases h
        obtain ⟨h1, h2, h3⟩ := ih hxs
        refine ⟨?_, ?_, by simp [h3]⟩
        · intro z hz
          rcases List.mem_cons.mp hz with hz | hz
          · exact ⟨x, List.mem_cons_self .., hz ▸ hx⟩
          · obtain ⟨w, hw, hfw⟩ := h1 z hz
            exact ⟨w, List.mem_cons_of_mem _ hw, hfw⟩
        · intro z hz
          rcases List.mem_cons.mp hz with hz | hz
          · exact ⟨y, List.mem_cons_self .., hz ▸ hx⟩
          · obtain ⟨w, hw, hfw⟩ := h2 z hz
            exact ⟨w, List.mem_cons_of_mem _ hw, hfw⟩

lemma find?_first {p : α → Bool} :
    ∀ {l : List α} {a : α}, l.find? p = some a →
      ∃ l₁ l₂, l = l₁ ++ a :: l₂ ∧ p a = true ∧ ∀ x ∈ l₁, p x = false := by
  intro l
  induction l with
  | nil => intro a h; simp [List.find?] at h
  | cons x xs ih =>
    intro a h
    by_cases hx : p x
    · rw [List.find?_cons_of_pos _ hx] at h
      cases h
      exact ⟨[], xs, rfl, hx, by simp⟩
    · rw [List.find?_cons_of_neg _ hx] at h
      obtain ⟨l₁, l₂, hl, hpa, hneg⟩ := ih h
      refine ⟨x :: l₁, l₂, by simp [hl], hpa, ?_⟩
      intro z hz
      rcases List.mem_cons.mp hz with hz | hz
      · exact hz ▸ (Bool.not_eq_true _).mp hx
      · exact hneg z hz

lemma parse_dispute_payment_id {d' : Json} {d : Dispute}
    (h : DisputeOperations.parse_dispute d' = .ok d) :
    d'.get? "paymentId" = some d.payment_id := by
  unfold DisputeOperations.parse_dispute at h
  cases h1 : d'.get? "id" with
  | none => rw [h1] at h; exact absurd h (by simp)
  | some i =>
  rw [h1] at h
  cases h2 : d'.get? "paymentId" with
  | none => rw [h2] at h; exact absurd h (by simp)
  | some pid =>
  rw [h2] at h
  cases h3 : d'.get? "buyerWalletId" with
  | none => rw [h3] at h; exact absurd h (by simp)
  | some bw =>
  rw [h3] at h
  cases h4 : d'.get? "providerWalletId" with
  | none => rw [h4] at h; exact absurd h (by simp)
  | some pw =>
  rw [h4] at h
  cases h5 : d'.get? "reason" with
  | none => rw [h5] at h; exact absurd h (by simp)
  | some rs =>
  rw [h5] at h
  cases h6 : d'.get? "status" with
  | none => rw [h6] at h; exact absurd h (by simp)
  | some st =>
  rw [h6] at h
  cases h7 : d'.get? "createdAt" with
  | none => rw [h7] at h; exact absurd h (by simp)
  | some ca =>
  rw [h7] at h
  cases h
  rfl

/-! ## Claims -/

/-- C2: for every SDK operation and every transport-level failure (network
error, timeout, or non-2xx HTTP status — all surfaced by the transport as a
`requests.RequestException` carrying the cause message), the operation
catches the failure and re-raises it as its domain error type with the
original cause's message embedded, never letting the raw transport exception
reach the caller; in particular `create_wallet` wraps it in the
wallet-specific error.  Each resource group uses its own error class
(`get_reputation`, which has no resource class, uses the base error). -/
theorem C2_transport_failure_wrapped
    (cause wid sid pid rid did wkid aid cur : String) :
    WalletOperations.create_wallet (.failure cause)
      = .error (.domain ⟨.wallet, "Failed to create wallet: " ++ cause⟩) ∧
    WalletOperations.get_wallet (.failure cause) wid
      = .error (.domain ⟨.wallet, "Failed to get wallet: " ++ cause⟩) ∧
    WalletOperations.get_balance (.failure cause) wid cur
      = .error (.domain ⟨.wallet, "Failed to get wallet: " ++ cause⟩) ∧
    ServiceOperations.register_service (.failure cause)
      = .error (.domain ⟨.service, "Failed to register service: " ++ cause⟩) ∧
    ServiceOperations.search_services (.failure cause)
      = .error (.domain ⟨.service, "Failed to search services: " ++ cause⟩) ∧
    ServiceOperations.get_service (.failure cause) sid
      = .error (.domain ⟨.service, "Failed to get service: " ++ cause⟩) ∧
    PaymentOperations.execute (.failure cause) sid
      = .error (.domain ⟨.execution, "Service execution failed: " ++ cause⟩) ∧
    PaymentOperations.get_payment (.failure cause) pid
      = .error (.domain ⟨.payment, "Failed to get payment: " ++ cause⟩) ∧
    PaymentOperations.get_receipt (.failure cause) rid
      = .error (.domain ⟨.payment, "Failed to get receipt: " ++ cause⟩) ∧
    DisputeOperations.open_dispute (.failure cause)
      = .error (.domain ⟨.dispute, "Failed to open dispute: " ++ cause⟩) ∧
    DisputeOperations.get_dispute (.failure cause) did
      = .error (.domain ⟨.dispute, "Failed to get dispute: " ++ cause⟩) ∧
    DisputeOperations.get_payment_disputes (.failure cause) pid
      = .error (.domain ⟨.dispute, "Failed to get payment disputes: " ++ cause⟩) ∧
    WebhookOperations.register_webhook (.failure cause)
      = .error (.domain ⟨.webhook, "Failed to register webhook: " ++ cause⟩) ∧
    WebhookOperations.list_webhooks (.failure cause)
      = .error (.domain ⟨.webhook, "Failed to list webhooks: " ++ cause⟩) ∧
    WebhookOperations.get_webhook (.failure cause) wkid
      = .error (.domain ⟨.webhook, "Failed to list webhooks: " ++ cause⟩) ∧
    WebhookOperations.delete_webhook (.failure cause)
      = .error (.domain ⟨.webhook, "Failed to delete webhook: " ++ cause⟩) ∧
    WebhookOperations.update_webhook (.failure cause)
      = .error (.domain ⟨.webhook, "Failed to update webhook: " ++ cause⟩) ∧
    AgentPayClient.get_reputation (.failure cause) aid
      = .error (.domain ⟨.base, "Failed to get reputation: " ++ cause⟩) :=
  ⟨rfl, rfl, rfl, rfl, rfl, rfl, rfl, rfl, rfl, rfl, rfl, rfl, rfl, rfl, rfl, rfl, rfl, rfl⟩

/-- C6: for every dispute id and evidence string, `add_evidence`
unconditionally raises the dispute domain error telling the caller to pass
evidence to `open_dispute`, never returns a dispute, and issues no HTTP
request. -/
theorem C6_add_evidence_always_fails (dispute_id evidence : String) :
    DisputeOperations.add_evidence dispute_id evidence
      = .error (.domain ⟨.dispute,
          "Adding evidence after opening a dispute is not supported by this API version. Pass evidence when calling open_dispute(...)."⟩) ∧
    (∀ d, DisputeOperations.add_evidence dispute_id evidence ≠ .ok d) ∧
    DisputeOperations.add_evidence_requests dispute_id evidence = [] :=
  ⟨rfl, fun d h => by simp [DisputeOperations.add_evidence] at h, rfl⟩

/-- C9: with a configured credential every group sends the JSON content type
and the bearer Authorization header; the dispute, payment and webhook groups
additionally send the same credential in `x-api-key` (both auth headers
together), while the wallet and service groups send only the bearer header;
with no credential configured no group sends any auth header.  The request
builders in this file use exactly these header lists. -/
theorem C9_headers_per_group (k pid wkid : String) :
    WalletOperations.get_headers (some k)
      = [("Content-Type", "application/json"), ("Authorization", "Bearer " ++ k)] ∧
    ServiceOperations.get_headers (some k)
      = [("Content-Type", "application/json"), ("Authorization", "Bearer " ++ k)] ∧
    PaymentOperations.get_headers (some k)
      = [("Content-Type", "application/json"),
         ("Authorization", "Bearer " ++ k), ("x-api-key", k)] ∧
    DisputeOperations.get_headers (some k)
      = [("Content-Type", "application/json"),
         ("Authorization", "Bearer " ++ k), ("x-api-key", k)] ∧
    WebhookOperations.get_headers (some k)
      = [("Content-Type", "application/json"),
         ("Authorization", "Bearer " ++ k), ("x-api-key", k)] ∧
    WalletOperations.get_headers none = [("Content-Type", "application/json")] ∧
    ServiceOperations.get_headers none = [("Content-Type", "application/json")] ∧
    PaymentOperations.get_headers none = [("Content-Type", "application/json")] ∧
    DisputeOperations.get_headers none = [("Content-Type", "application/json")] ∧
    WebhookOperations.get_headers none = [("Content-Type", "application/json")] ∧
    (DisputeOperations.get_payment_disputes_request (some k) pid).headers
      = DisputeOperations.get_headers (some k) ∧
    (WebhookOperations.get_webhook_request (some k) wkid).headers
      = WebhookOperations.get_headers (some k) :=
  ⟨rfl, rfl, rfl, rfl, rfl, rfl, rfl, rfl, rfl, rfl, rfl, rfl⟩

/-- C10: for every single-resource operation requiring a top-level success
key, a reply whose key is present but maps to a falsy value (empty object,
null, empty string, ...) is treated exactly like a reply without the key:
the `x = data.get(key); if not x` pattern yields the same branch in both
cases, and the operation raises its domain error instead of returning a
record. -/
theorem C10_falsy_success_key_like_absent (v : Json) (hv : v.truthy = false)
    (wid sid pid rid did aid : String) :
    (∀ (data : Json) (k : String), data.get? k = none → data.getTruthy k = none) ∧
    (∀ (data : Json) (k : String), data.get? k = some v → data.getTruthy k = none) ∧
    (∀ data : Json, data.getTruthy "wallet" = none →
      WalletOperations.get_wallet (.success data) wid
        = .error (.domain ⟨.wallet, "Wallet " ++ wid ++ " not found"⟩) ∧
      WalletOperations.create_wallet (.success data)
        = .error (.domain ⟨.wallet, "Invalid response: missing wallet data"⟩)) ∧
    (∀ data : Json, data.getTruthy "service" = none →
      ServiceOperations.get_service (.success data) sid
        = .error (.domain ⟨.service, "Service " ++ sid ++ " not found"⟩) ∧
      ServiceOperations.register_service (.success data)
        = .error (.domain ⟨.service, "Invalid response: missing service data"⟩)) ∧
    (∀ data : Json, data.getTruthy "payment" = none →
      PaymentOperations.get_payment (.success data) pid
        = .error (.domain ⟨.payment, "Payment " ++ pid ++ " not found"⟩)) ∧
    (∀ data : Json, data.getTruthy "receipt" = none →
      PaymentOperations.get_receipt (.success data) rid
        = .error (.domain ⟨.payment, "Receipt " ++ rid ++ " not found"⟩)) ∧
    (∀ data : Json, data.getTruthy "dispute" = none →
      DisputeOperations.get_dispute (.success data) did
        = .error (.domain ⟨.dispute, "Dispute " ++ did ++ " not found"⟩) ∧
      DisputeOperations.open_dispute (.success data)
        = .error (.domain ⟨.dispute, "Invalid response: missing dispute data"⟩)) ∧
    (∀ data : Json, data.getTruthy "webhook" = none →
      WebhookOperations.register_webhook (.success data)
        = .error (.domain ⟨.webhook, "Invalid response: missing webhook data"⟩) ∧
      WebhookOperations.update_webhook (.success data)
        = .error (.domain ⟨.webhook, "Invalid response: missing webhook data"⟩)) ∧
    (∀ data : Json, data.getTruthy "reputation" = none →
      AgentPayClient.get_reputation (.success data) aid
        = .error (.domain ⟨.base, "Reputation for agent " ++ aid ++ " not found"⟩)) := by
  refine ⟨fun data k h => getTruthy_eq_none_of_absent h,
          fun data k h => getTruthy_eq_none_of_falsy h hv,
          fun data h => ⟨?_, ?_⟩, fun data h => ⟨?_, ?_⟩, fun data h => ?_,
          fun data h => ?_, fun data h => ⟨?_, ?_⟩, fun data h => ⟨?_, ?_⟩,
          fun data h => ?_⟩
  · simp [WalletOperations.get_wallet, h]
  · simp [WalletOperations.create_wallet, h]
  · simp [ServiceOperations.get_service, h]
  · simp [ServiceOperations.register_service, h]
  · simp [PaymentOperations.get_payment, h]
  · simp [PaymentOperations.get_receipt, h]
  · simp [DisputeOperations.get_dispute, h]
  · simp [DisputeOperations.open_dispute, h]
  · simp [WebhookOperations.register_webhook, h]
  · simp [WebhookOperations.update_webhook, h]
  · simp [AgentPayClient.get_reputation, h]

/-- Witness for C10: the reply `{"wallet": {}}` carries the success key with
a falsy value, and `get_wallet` raises the wallet not-found domain error on
it. -/
theorem C10_witness :
    WalletOperations.get_wallet (.success (Json.obj [("wallet", Json.obj [])])) "w1"
      = .error (.domain ⟨.wallet, "Wallet " ++ "w1" ++ " not found"⟩) :=
  ((C10_falsy_success_key_like_absent (Json.obj []) rfl "w1" "s1" "p1" "r1" "d1" "a1").2.2.1
    (Json.obj [("wallet", Json.obj [])]) rfl).1

/-- C3: `get_balance` fetches the wallet and dispatches on the uppercased
currency code: `BSV` returns `balance or 0`, `MNEE` returns
`balance_mnee or 0` (so an absent balance field yields zero), and any other
code raises the wallet domain error `Invalid currency`; for an unrecognized
code the call never returns a value, whatever the wallet reply was. -/
theorem C3_get_balance_dispatch (resp : HttpResult) (wid cur : String) :
    (∀ w, WalletOperations.get_wallet resp wid = .ok w →
      (pyUpper cur = "BSV" →
        WalletOperations.get_balance resp wid cur = .ok (pyOr w.balance (Json.num 0))) ∧
      (pyUpper cur = "BSV" → w.balance = none →
        WalletOperations.get_balance resp wid cur = .ok (Json.num 0)) ∧
      (pyUpper cur = "MNEE" →
        WalletOperations.get_balance resp wid cur = .ok (pyOr w.balance_mnee (Json.num 0))) ∧
      (pyUpper cur = "MNEE" → w.balance_mnee = none →
        WalletOperations.get_balance resp wid cur = .ok (Json.num 0)) ∧
      (pyUpper cur ≠ "BSV" → pyUpper cur ≠ "MNEE" →
        WalletOperations.get_balance resp wid cur
          = .error (.domain ⟨.wallet, "Invalid currency: " ++ cur⟩))) ∧
    (pyUpper cur ≠ "BSV" → pyUpper cur ≠ "MNEE" →
      ∀ v, WalletOperations.get_balance resp wid cur ≠ .ok v) := by
  constructor
  · intro w hw
    refine ⟨fun h1 => ?_, fun h1 h2 => ?_, fun h1 => ?_, fun h1 h2 => ?_, fun h1 h2 => ?_⟩
    · simp [WalletOperations.get_balance, hw, h1]
    · simp [WalletOperations.get_balance, hw, h1, h2, pyOr]
    · simp [WalletOperations.get_balance, hw, h1]
    · simp [WalletOperations.get_balance, hw, h1, h2, pyOr]
    · simp [WalletOperations.get_balance, hw, h1, h2]
  · intro h1 h2 v hcon
    cases hw : WalletOperations.get_wallet resp wid with
    | error e => simp [WalletOperations.get_balance, hw] at hcon
    | ok w => simp [WalletOperations.get_balance, hw, h1, h2] at hcon

/-- A concrete wallet reply used by the C3 witness: a wallet with a BSV
balance of 100 and no MNEE balance field. -/
def walletReply0 : HttpResult :=
  .success (Json.obj [("wallet", Json.obj
    [("id", .str "w1"), ("publicKey", .str "pk"), ("address", .str "ad"),
     ("createdAt", .str "t"), ("balance", .num 100)])])

/-- Witness for C3: on a concrete wallet reply, a lowercase `bsv` selects the
balance 100, a lowercase `mnee` yields the zero default for the absent MNEE
balance, and the unknown code `eur` never yields a value. -/
theorem C3_witness :
    WalletOperations.get_balance walletReply0 "w1" "bsv" = .ok (Json.num 100) ∧
    WalletOperations.get_balance walletReply0 "w1" "mnee" = .ok (Json.num 0) ∧
    WalletOperations.get_balance walletReply0 "w1" "eur" ≠ .ok (Json.num 5) :=
  ⟨((C3_get_balance_dispatch walletReply0 "w1" "bsv").1
      ⟨.str "w1", .str "pk", .str "ad", .str "t", some (.num 100), none⟩ rfl).1 (by decide),
   (((C3_get_balance_dispatch walletReply0 "w1" "mnee").1
      ⟨.str "w1", .str "pk", .str "ad", .str "t", some (.num 100), none⟩ rfl).2.2.2.1
      (by decide) rfl),
   ((C3_get_balance_dispatch walletReply0 "w1" "eur").2 (by decide) (by decide) (Json.num 5))⟩

/-- C5: `get_payment_disputes` fetches the entire dispute collection — its
request is a GET of the bare collection path, identical whatever payment id
is asked for — and returns exactly the parses of the entries whose embedded
`paymentId` equals the requested id, in order: every returned dispute
carries the requested payment id, and the returned list is the sequential
parse of all matching entries (so every matching entry of the reply is
returned), even when the collection holds disputes of other payments.  The
hypothesis that entries are JSON objects matches the shape of a dispute
collection reply. -/
theorem C5_get_payment_disputes_filter (data : Json) (xs : List Json) (pid : String)
    (hxs : data.get? "disputes" = some (.arr xs))
    (hobj : ∀ d ∈ xs, d.isObj = true) :
    DisputeOperations.get_payment_disputes (.success data) pid
      = mapExcept DisputeOperations.parse_dispute
          (xs.filter (fun d => DisputeOperations.matchesPayment d pid)) ∧
    (∀ ds, DisputeOperations.get_payment_disputes (.success data) pid = .ok ds →
      (∀ d ∈ ds, d.payment_id = .str pid) ∧
      (∀ x ∈ xs, DisputeOperations.matchesPayment x pid = true →
        ∃ d ∈ ds, DisputeOperations.parse_dispute x = .ok d) ∧
      ds.length = (xs.filter (fun d => DisputeOperations.matchesPayment d pid)).length) ∧
    (∀ (k : Option String) (pid2 : String),
      DisputeOperations.get_payment_disputes_request k pid
        = DisputeOperations.get_payment_disputes_request k pid2 ∧
      (DisputeOperations.get_payment_disputes_request k pid).path = "/api/disputes" ∧
      (DisputeOperations.get_payment_disputes_request k pid).method = "GET") := by
  have hdef : DisputeOperations.get_payment_disputes (.success data) pid
      = mapExcept DisputeOperations.parse_dispute
          (xs.filter (fun d => DisputeOperations.matchesPayment d pid)) := by
    simp [DisputeOperations.get_payment_disputes, hxs]
  refine ⟨hdef, ?_, fun k pid2 => ⟨rfl, rfl, rfl⟩⟩
  intro ds hds
  rw [hdef] at hds
  obtain ⟨h1, h2, h3⟩ := mapExcept_ok hds
  refine ⟨?_, ?_, h3⟩
  · intro d hd
    obtain ⟨x, hx, hpx⟩ := h1 d hd
    have hmatch : DisputeOperations.matchesPayment x pid = true :=
      (List.mem_filter.mp hx).2
    have hpidkey := parse_dispute_payment_id hpx
    unfold DisputeOperations.matchesPayment at hmatch
    rw [hpidkey] at hmatch
    exact (isStr_eq_iff _ _).mp hmatch
  · intro x hx hmatch
    exact h2 x (List.mem_filter.mpr ⟨hx, hmatch⟩)

/-- A concrete dispute object for the C5 witness, attached to payment `p1`. -/
def disputeObj1 : Json :=
  Json.obj [("id", .str "d1"), ("paymentId", .str "p1"), ("buyerWalletId", .str "b1"),
            ("providerWalletId", .str "v1"), ("reason", .str "bad"),
            ("status", .str "open"), ("createdAt", .str "t1")]

/-- A concrete dispute object for the C5 witness, attached to a different
payment `p2`. -/
def disputeObj2 : Json :=
  Json.obj [("id", .str "d2"), ("paymentId", .str "p2"), ("buyerWalletId", .str "b2"),
            ("providerWalletId", .str "v2"), ("reason", .str "slow"),
            ("status", .str "open"), ("createdAt", .str "t2")]

/-- Witness for C5: on a collection holding disputes of two different
payments, asking for payment `p1` returns exactly the parse of the matching
entry. -/
theorem C5_witness :
    DisputeOperations.get_payment_disputes
        (.success (Json.obj [("disputes", Json.arr [disputeObj1, disputeObj2])])) "p1"
      = mapExcept DisputeOperations.parse_dispute
          ([disputeObj1, disputeObj2].filter
            (fun d => DisputeOperations.matchesPayment d "p1")) :=
  (C5_get_payment_disputes_filter
      (Json.obj [("disputes", Json.arr [disputeObj1, disputeObj2])])
      [disputeObj1, disputeObj2] "p1" rfl (by decide)).1

/-- C7: `get_webhook` issues only a GET of the full webhook collection (its
single request's path does not mention the requested id), linearly scans the
parsed listing and returns the first webhook whose id matches; when no entry
of the listing matches it raises the webhook not-found domain error after
the scan. -/
theorem C7_get_webhook_scan (resp : HttpResult) (wkid : String) :
    (∀ ws, WebhookOperations.list_webhooks resp = .ok ws →
      (∀ w, ws.find? (fun x => x.id.isStr wkid) = some w →
        WebhookOperations.get_webhook resp wkid = .ok w ∧
        ∃ l₁ l₂, ws = l₁ ++ w :: l₂ ∧ w.id.isStr wkid = true ∧
          ∀ x ∈ l₁, x.id.isStr wkid = false) ∧
      ((∀ w ∈ ws, w.id.isStr wkid = false) →
        WebhookOperations.get_webhook resp wkid
          = .error (.domain ⟨.webhook, "Webhook " ++ wkid ++ " not found"⟩))) ∧
    (∀ k : Option String,
      (WebhookOperations.get_webhook_request k wkid).path = "/api/webhooks" ∧
      (WebhookOperations.get_webhook_request k wkid).method = "GET" ∧
      ∀ wkid2, WebhookOperations.get_webhook_request k wkid
        = WebhookOperations.get_webhook_request k wkid2) := by
  refine ⟨?_, fun k => ⟨rfl, rfl, fun wkid2 => rfl⟩⟩
  intro ws hws
  constructor
  · intro w hfind
    refine ⟨by simp [WebhookOperations.get_webhook, hws, hfind], find?_first hfind⟩
  · intro hnone
    have hfind : ws.find? (fun x => x.id.isStr wkid) = none :=
      List.find?_eq_none.mpr (fun x hx => by simp [hnone x hx])
    simp [WebhookOperations.get_webhook, hws, hfind]

/-- A concrete webhook listing reply for the C7 witness: two webhooks with
ids `h1` and `h2`. -/
def webhookReply0 : HttpResult :=
  .success (Json.obj [("webhooks", Json.arr
    [Json.obj [("id", .str "h1"), ("url", .str "u1"), ("events", .arr []),
               ("active", .bool true), ("createdAt", .str "t1")],
     Json.obj [("id", .str "h2"), ("url", .str "u2"), ("events", .arr []),
               ("active", .bool true), ("createdAt", .str "t2")]])])

/-- Witness for C7: on the concrete listing, asking for id `h2` returns the
second webhook, and asking for the absent id `h9` raises the not-found
domain error. -/
theorem C7_witness :
    WebhookOperations.get_webhook webhookReply0 "h2"
      = .ok { id := .str "h2", url := .str "u2", events := .arr [],
              active := .bool true, created_at := .str "t2", secret := none } ∧
    WebhookOperations.get_webhook webhookReply0 "h9"
      = .error (.domain ⟨.webhook, "Webhook " ++ "h9" ++ " not found"⟩) :=
  ⟨(((C7_get_webhook_scan webhookReply0 "h2").1 _ rfl).1 _ rfl).1,
   ((C7_get_webhook_scan webhookReply0 "h9").1
      [{ id := .str "h1", url := .str "u1", events := .arr [],
         active := .bool true, created_at := .str "t1", secret := none },
       { id := .str "h2", url := .str "u2", events := .arr [],
         active := .bool true, created_at := .str "t2", secret := none }] rfl).2
      (by decide)⟩

/-- C8: in `execute`'s reply handling the optional receipt and payment
objects are parsed independently of each other — each component is a
function of its own key alone — and each is included in the result only if
present: an absent (or falsy) `receipt` or `payment` key yields an empty
component and is not an error, so a reply carrying just `paymentId` still
succeeds with both components empty. -/
theorem C8_execute_optional_parts (data : Json) (sid : String) :
    (∀ pv ro po, data.get? "paymentId" = some pv →
      PaymentOperations.receiptPart data = .ok ro →
      PaymentOperations.paymentPart data = .ok po →
      PaymentOperations.execute (.success data) sid = .ok
        { payment_id := pv,
          service_id := (data.get? "serviceId").getD (.str sid),
          output := (data.get? "output").getD (.obj []),
          execution_time_ms := (data.get? "executionTimeMs").getD (.num 0),
          status := (data.get? "status").getD (.str "pending"),
          receipt := ro, payment := po }) ∧
    (data.getTruthy "receipt" = none → PaymentOperations.receiptPart data = .ok none) ∧
    (data.getTruthy "payment" = none → PaymentOperations.paymentPart data = .ok none) ∧
    (∀ d', data.getTruthy "receipt" = d'.getTruthy "receipt" →
      PaymentOperations.receiptPart data = PaymentOperations.receiptPart d') ∧
    (∀ d', data.getTruthy "payment" = d'.getTruthy "payment" →
      PaymentOperations.paymentPart data = PaymentOperations.paymentPart d') ∧
    (∀ r, PaymentOperations.execute (.success data) sid = .ok r →
      (r.receipt = none ↔ data.getTruthy "receipt" = none) ∧
      (r.payment = none ↔ data.getTruthy "payment" = none)) := by
  refine ⟨?_, ?_, ?_, ?_, ?_, ?_⟩
  · intro pv ro po hpv hro hpo
    simp [PaymentOperations.execute, hro, hpo, hpv]
  · intro h; simp [PaymentOperations.receiptPart, h]
  · intro h; simp [PaymentOperations.paymentPart, h]
  · intro d' h; simp [PaymentOperations.receiptPart, h]
  · intro d' h; simp [PaymentOperations.paymentPart, h]
  · intro r hr
    simp only [PaymentOperations.execute] at hr
    cases hro : PaymentOperations.receiptPart data with
    | error e => rw [hro] at hr; exact absurd hr (by simp)
    | ok ro =>
      simp only [hro] at hr
      cases hpo : PaymentOperations.paymentPart data with
      | error e => rw [hpo] at hr; exact absurd hr (by simp)
      | ok po =>
        simp only [hpo] at hr
        cases hpv : data.get? "paymentId" with
        | none => rw [hpv] at hr; exact absurd hr (by simp)
        | some pv =>
          simp only [hpv] at hr
          cases hr
          constructor
          · simp only [PaymentOperations.receiptPart] at hro
            cases hrec : data.getTruthy "receipt" with
            | none => simp only [hrec] at hro; cases hro; simp [hrec]
            | some rd =>
              simp only [hrec] at hro
              cases hp : PaymentOperations.parse_receipt rd with
              | error e => rw [hp] at hro; exact absurd hro (by simp)
              | ok rr => simp only [hp] at hro; cases hro; simp [hrec]
          · simp only [PaymentOperations.paymentPart] at hpo
            cases hpay : data.getTruthy "payment" with
            | none => simp only [hpay] at hpo; cases hpo; simp [hpay]
            | some pd =>
              simp only [hpay] at hpo
              cases hp : PaymentOperations.parse_payment pd with
              | error e => rw [hp] at hpo; exact absurd hpo (by simp)
              | ok pp => simp only [hp] at hpo; cases hpo; simp [hpay]

/-- Witness for C8: a reply holding only `paymentId` (no receipt, no
payment) still succeeds, with both optional components empty. -/
theorem C8_witness :
    PaymentOperations.execute (.success (Json.obj [("paymentId", .str "p1")])) "s1"
      = .ok { payment_id := .str "p1", service_id := .str "s1", output := .obj [],
              execution_time_ms := .num 0, status := .str "pending",
              receipt := none, payment := none } :=
  ((C8_execute_optional_parts (Json.obj [("paymentId", .str "p1")]) "s1").1
    (.str "p1") none none rfl
    (((C8_execute_optional_parts (Json.obj [("paymentId", .str "p1")]) "s1").2.1) rfl)
    (((C8_execute_optional_parts (Json.obj [("paymentId", .str "p1")]) "s1").2.2.1) rfl))

lemma get_reputation_missing_field {data rep : Json} {aid : String}
    (h : data.getTruthy "reputation" = some rep) {e : PyError}
    (he : AgentPayClient.get_reputation (.success data) aid = .error e) :
    ∃ k ∈ AgentPayClient.repMandatoryKeys, e = .keyError k ∧ rep.get? k = none := by
  simp only [AgentPayClient.get_reputation, h] at he
  cases h1 : rep.get? "agentId" with
  | none =>
    simp only [h1] at he; injection he with he'
    exact ⟨"agentId", by decide, he'.symm, h1⟩
  | some x1 =>
  simp only [h1] at he
  cases h2 : rep.get? "totalJobs" with
  | none =>
    simp only [h2] at he; injection he with he'
    exact ⟨"totalJobs", by decide, he'.symm, h2⟩
  | some x2 =>
  simp only [h2] at he
  cases h3 : rep.get? "successRate" with
  | none =>
    simp only [h3] at he; injection he with he'
    exact ⟨"successRate", by decide, he'.symm, h3⟩
  | some x3 =>
  simp only [h3] at he
  cases h4 : rep.get? "avgResponseTimeMs" with
  | none =>
    simp only [h4] at he; injection he with he'
    exact ⟨"avgResponseTimeMs", by decide, he'.symm, h4⟩
  | some x4 =>
  simp only [h4] at he
  cases h5 : rep.get? "totalEarned" with
  | none =>
    simp only [h5] at he; injection he with he'
    exact ⟨"totalEarned", by decide, he'.symm, h5⟩
  | some x5 =>
  simp only [h5] at he
  cases h6 : rep.get? "totalSpent" with
  | none =>
    simp only [h6] at he; injection he with he'
    exact ⟨"totalSpent", by decide, he'.symm, h6⟩
  | some x6 =>
  simp only [h6] at he
  cases h7 : rep.get? "rating" with
  | none =>
    simp only [h7] at he; injection he with he'
    exact ⟨"rating", by decide, he'.symm, h7⟩
  | some x7 =>
  simp only [h7] at he
  exact Except.noConfusion he

lemma parse_receipt_missing_field {d : Json} {e : PyError}
    (he : PaymentOperations.parse_receipt d = .error e) :
    ∃ k ∈ receiptMandatoryKeys, e = .keyError k ∧ d.get? k = none := by
  simp only [PaymentOperations.parse_receipt] at he
  cases h1 : d.get? "id" with
  | none =>
    simp only [h1] at he; injection he with he'
    exact ⟨"id", by decide, he'.symm, h1⟩
  | some x1 =>
  simp only [h1] at he
  cases h2 : d.get? "paymentId" with
  | none =>
    simp only [h2] at he; injection he with he'
    exact ⟨"paymentId", by decide, he'.symm, h2⟩
  | some x2 =>
  simp only [h2] at he
  cases h3 : d.get? "serviceId" with
  | none =>
    simp only [h3] at he; injection he with he'
    exact ⟨"serviceId", by decide, he'.symm, h3⟩
  | some x3 =>
  simp only [h3] at he
  cases h4 : d.get? "inputHash" with
  | none =>
    simp only [h4] at he; injection he with he'
    exact ⟨"inputHash", by decide, he'.symm, h4⟩
  | some x4 =>
  simp only [h4] at he
  cases h5 : d.get? "outputHash" with
  | none =>
    simp only [h5] at he; injection he with he'
    exact ⟨"outputHash", by decide, he'.symm, h5⟩
  | some x5 =>
  simp only [h5] at he
  cases h6 : d.get? "timestamp" with
  | none =>
    simp only [h6] at he; injection he with he'
    exact ⟨"timestamp", by decide, he'.symm, h6⟩
  | some x6 =>
  simp only [h6] at he
  cases h7 : d.get? "executionTimeMs" with
  | none =>
    simp only [h7] at he; injection he with he'
    exact ⟨"executionTimeMs", by decide, he'.symm, h7⟩
  | some x7 =>
  simp only [h7] at he
  cases h8 : d.get? "providerSignature" with
  | none =>
    simp only [h8] at he; injection he with he'
    exact ⟨"providerSignature", by decide, he'.symm, h8⟩
  | some x8 =>
  simp only [h8] at he
  cases h9 : d.get? "platformSignature" with
  | none =>
    simp only [h9] at he; injection he with he'
    exact ⟨"platformSignature", by decide, he'.symm, h9⟩
  | some x9 =>
  simp only [h9] at he
  cases h10 : d.get? "receiptHash" with
  | none =>
    simp only [h10] at he; injection he with he'
    exact ⟨"receiptHash", by decide, he'.symm, h10⟩
  | some x10 =>
  simp only [h10] at he
  exact Except.noConfusion he

/-- Counterexample to C1 as stated: in the reply
`{"reputation": {"totalJobs": 7}}` the mandatory nested field `agentId` is
absent, and `get_reputation` surfaces this as a raw `KeyError` — a
language-level exception that is not an instance of the SDK's base error
class (`except requests.RequestException` does not catch `KeyError`). -/
theorem C1_counterexample :
    AgentPayClient.get_reputation
        (.success (Json.obj [("reputation", Json.obj [("totalJobs", Json.num 7)])])) "agent_1"
      = .error (.keyError "agentId") ∧
    (PyError.keyError "agentId").isDomain = false :=
  ⟨rfl, rfl⟩

/-- C1 (amended): absence (or falsiness) of the top-level success key is a
parse failure surfaced as a domain error, but absence of a mandatory field
inside the nested record is surfaced as a raw `KeyError` naming the missing
mandatory key — a language-level exception, not a domain error — as shown
here for the cited operations: `get_reputation` over the seven mandatory
reputation fields and `_parse_receipt` (with its caller `get_receipt`) over
the ten mandatory receipt fields. -/
theorem C1_amended (data rep : Json) (aid rid : String) :
    (data.getTruthy "reputation" = none →
      AgentPayClient.get_reputation (.success data) aid
        = .error (.domain ⟨.base, "Reputation for agent " ++ aid ++ " not found"⟩)) ∧
    (data.getTruthy "reputation" = some rep →
      ∀ e, AgentPayClient.get_reputation (.success data) aid = .error e →
        ∃ k ∈ AgentPayClient.repMandatoryKeys,
          e = .keyError k ∧ e.isDomain = false ∧ rep.get? k = none) ∧
    (∀ e, PaymentOperations.parse_receipt rep = .error e →
      ∃ k ∈ receiptMandatoryKeys, e = .keyError k ∧ e.isDomain = false ∧ rep.get? k = none) ∧
    (data.getTruthy "receipt" = none →
      PaymentOperations.get_receipt (.success data) rid
        = .error (.domain ⟨.payment, "Receipt " ++ rid ++ " not found"⟩)) := by
  refine ⟨fun h => by simp [AgentPayClient.get_reputation, h], ?_, ?_,
          fun h => by simp [PaymentOperations.get_receipt, h]⟩
  · intro h e he
    obtain ⟨k, hk, hek, hget⟩ := get_reputation_missing_field h he
    exact ⟨k, hk, hek, by simp [hek, PyError.isDomain], hget⟩
  · intro e he
    obtain ⟨k, hk, hek, hget⟩ := parse_receipt_missing_field he
    exact ⟨k, hk, hek, by simp [hek, PyError.isDomain], hget⟩

/-- Witness for the amended C1: on the reply `{"reputation": {}}` — present
but falsy nested record — `get_reputation` raises the not-found domain
error. -/
theorem C1_witness :
    AgentPayClient.get_reputation
        (.success (Json.obj [("reputation", Json.obj [])])) "agent_1"
      = .error (.domain ⟨.base, "Reputation for agent " ++ "agent_1" ++ " not found"⟩) :=
  (C1_amended (Json.obj [("reputation", Json.obj [])]) (Json.obj []) "agent_1" "r1").1 rfl

lemma parse_service_fields {d : Json} {s : Service}
    (h : ServiceOperations.parse_service d = .ok s) :
    s.timeout = (d.get? "timeout").getD (.num 30) ∧
    s.dispute_window = (d.get? "disputeWindow").getD (.num 30) := by
  simp only [ServiceOperations.parse_service] at h
  cases h1 : d.get? "id" with
  | none => simp only [h1] at h; exact Except.noConfusion h
  | some x1 =>
  simp only [h1] at h
  cases h2 : d.get? "agentId" with
  | none => simp only [h2] at h; exact Except.noConfusion h
  | some x2 =>
  simp only [h2] at h
  cases h3 : d.get? "name" with
  | none => simp only [h3] at h; exact Except.noConfusion h
  | some x3 =>
  simp only [h3] at h
  cases h4 : d.get? "description" with
  | none => simp only [h4] at h; exact Except.noConfusion h
  | some x4 =>
  simp only [h4] at h
  cases h5 : d.get? "category" with
  | none => simp only [h5] at h; exact Except.noConfusion h
  | some x5 =>
  simp only [h5] at h
  cases h6 : d.get? "price" with
  | none => simp only [h6] at h; exact Except.noConfusion h
  | some x6 =>
  simp only [h6] at h
  cases h7 : d.get? "currency" with
  | none => simp only [h7] at h; exact Except.noConfusion h
  | some x7 =>
  simp only [h7] at h
  cases h8 : d.get? "endpoint" with
  | none => simp only [h8] at h; exact Except.noConfusion h
  | some x8 =>
  simp only [h8] at h
  cases h9 : d.get? "method" with
  | none => simp only [h9] at h; exact Except.noConfusion h
  | some x9 =>
  simp only [h9] at h
  cases h10 : d.get? "active" with
  | none => simp only [h10] at h; exact Except.noConfusion h
  | some x10 =>
  simp only [h10] at h
  cases h11 : d.get? "createdAt" with
  | none => simp only [h11] at h; exact Except.noConfusion h
  | some x11 =>
  simp only [h11] at h
  cases h12 : d.get? "updatedAt" with
  | none => simp only [h12] at h; exact Except.noConfusion h
  | some x12 =>
  simp only [h12] at h
  cases h
  exact ⟨rfl, rfl⟩

lemma execute_result_fields {data : Json} {sid : String} {r : ExecutionResult}
    (h : PaymentOperations.execute (.success data) sid = .ok r) :
    r.service_id = (data.get? "serviceId").getD (.str sid) ∧
    r.output = (data.get? "output").getD (.obj []) ∧
    r.execution_time_ms = (data.get? "executionTimeMs").getD (.num 0) ∧
    r.status = (data.get? "status").getD (.str "pending") := by
  simp only [PaymentOperations.execute] at h
  cases hro : PaymentOperations.receiptPart data with
  | error e => rw [hro] at h; exact absurd h (by simp)
  | ok ro =>
  simp only [hro] at h
  cases hpo : PaymentOperations.paymentPart data with
  | error e => rw [hpo] at h; exact absurd h (by simp)
  | ok po =>
  simp only [hpo] at h
  cases hpv : data.get? "paymentId" with
  | none => rw [hpv] at h; exact absurd h (by simp)
  | some pv =>
  simp only [hpv] at h
  cases h
  exact ⟨rfl, rfl, rfl, rfl⟩

lemma create_wallet_balances {data w' : Json} {aw : AgentWallet}
    (hw : data.getTruthy "wallet" = some w')
    (h : WalletOperations.create_wallet (.success data) = .ok aw) :
    aw.balance = w'.get? "balance" ∧ aw.balance_mnee = w'.get? "balanceMnee" := by
  simp only [WalletOperations.create_wallet, hw] at h
  cases h1 : w'.get? "id" with
  | none => simp only [h1] at h; exact Except.noConfusion h
  | some x1 =>
  simp only [h1] at h
  cases h2 : w'.get? "publicKey" with
  | none => simp only [h2] at h; exact Except.noConfusion h
  | some x2 =>
  simp only [h2] at h
  cases h3 : w'.get? "address" with
  | none => simp only [h3] at h; exact Except.noConfusion h
  | some x3 =>
  simp only [h3] at h
  cases h4 : w'.get? "createdAt" with
  | none => simp only [h4] at h; exact Except.noConfusion h
  | some x4 =>
  simp only [h4] at h
  cases h
  exact ⟨rfl, rfl⟩

/-- A concrete service reply object for C4: all twelve mandatory keys
present, `timeout` and `disputeWindow` absent. -/
def svcNoTimeout : Json :=
  Json.obj [("id", .str "s1"), ("agentId", .str "w1"), ("name", .str "n"),
            ("description", .str "d"), ("category", .str "c"), ("price", .num 5),
            ("currency", .str "BSV"), ("endpoint", .str "e"), ("method", .str "POST"),
            ("active", .bool true), ("createdAt", .str "t"), ("updatedAt", .str "t")]

/-- The record `_parse_service` builds from `svcNoTimeout`: the absent
`timeout` and `disputeWindow` keys are filled with the substitute value 30. -/
def svcParsed0 : Service :=
  { id := .str "s1", agent_id := .str "w1", name := .str "n", description := .str "d",
    category := .str "c", price := .num 5, currency := .str "BSV", endpoint := .str "e",
    method := .str "POST", active := .bool true, timeout := .num 30,
    dispute_window := .num 30, created_at := .str "t", updated_at := .str "t",
    input_schema := none, output_schema := none }

/-- Counterexample to C4 as stated: the zero-default of `get_balance` is not
the only field default — `_parse_service` fills the absent `timeout` and
`disputeWindow` wire keys with the substitute value 30 instead of requiring
them or leaving them absent. -/
theorem C4_counterexample :
    svcNoTimeout.get? "timeout" = none ∧
    svcNoTimeout.get? "disputeWindow" = none ∧
    ServiceOperations.parse_service svcNoTimeout = .ok svcParsed0 :=
  ⟨rfl, rfl, rfl⟩

/-- C4 (amended): the data model has more field defaults than the
`get_balance` zero-default: `_parse_service` defaults `timeout` and
`disputeWindow` to 30 when their wire keys are missing, and `execute`
defaults `serviceId` to the requested service id, `output` to the empty
object, `executionTimeMs` to 0 and `status` to `pending`; the wallet parse,
by contrast, stores absent balance fields as absent, without substitution
(the zero appears only in `get_balance`). -/
theorem C4_amended (data w' : Json) (sid : String) :
    (∀ s, ServiceOperations.parse_service data = .ok s →
      (data.get? "timeout" = none → s.timeout = .num 30) ∧
      (data.get? "disputeWindow" = none → s.dispute_window = .num 30)) ∧
    (∀ r, PaymentOperations.execute (.success data) sid = .ok r →
      (data.get? "serviceId" = none → r.service_id = .str sid) ∧
      (data.get? "output" = none → r.output = .obj []) ∧
      (data.get? "executionTimeMs" = none → r.execution_time_ms = .num 0) ∧
      (data.get? "status" = none → r.status = .str "pending")) ∧
    (∀ aw, data.getTruthy "wallet" = some w' →
      WalletOperations.create_wallet (.success data) = .ok aw →
      (w'.get? "balance" = none → aw.balance = none) ∧
      (w'.get? "balanceMnee" = none → aw.balance_mnee = none)) := by
  refine ⟨?_, ?_, ?_⟩
  · intro s hs
    obtain ⟨ht, hd⟩ := parse_service_fields hs
    exact ⟨fun h => by simp [ht, h], fun h => by simp [hd, h]⟩
  · intro r hr
    obtain ⟨h1, h2, h3, h4⟩ := execute_result_fields hr
    exact ⟨fun h => by simp [h1, h], fun h => by simp [h2, h],
           fun h => by simp [h3, h], fun h => by simp [h4, h]⟩
  · intro aw hw haw
    obtain ⟨h1, h2⟩ := create_wallet_balances hw haw
    exact ⟨fun h => by simp [h1, h], fun h => by simp [h2, h]⟩

/-- Witness for the amended C4: parsing the concrete service object without
a `timeout` key yields a record whose timeout was filled with 30. -/
theorem C4_witness :
    ServiceOperations.parse_service svcNoTimeout = .ok svcParsed0 ∧
    svcParsed0.timeout = Json.num 30 :=
  ⟨rfl, ((C4_amended svcNoTimeout (Json.obj []) "s1").1 svcParsed0 rfl).1 rfl⟩

/-- Witness for C6: at a concrete dispute id and evidence string the call
raises the dispute domain error. -/
theorem C6_witness :
    DisputeOperations.add_evidence "d1" "proof-url"
      = .error (.domain ⟨.dispute,
          "Adding evidence after opening a dispute is not supported by this API version. Pass evidence when calling open_dispute(...)."⟩) :=
  (C6_add_evidence_always_fails "d1" "proof-url").1
